import Mathlib

/-!
Shallow embedding of the `baggins` crate (discount / tax line-item
arithmetic over exact decimals) and proofs about its spec.

Modelling conventions, used uniformly below:

* `BigDecimal` values are modelled as `ℚ`: the crate performs only
  addition, subtraction, multiplication and division on exact decimals,
  and every claim settled here is insensitive to the crate's finite
  division precision (each is an equality or disequality that already
  holds or fails at the rational level).
* The `bigdecimal` crate panics when dividing by zero.  A panic is
  modelled as `Option.none`: every operation whose source code contains
  an unguarded division returns `Option (Except e α)`, where `none`
  marks the panic, `some (.error _)` a returned typed error and
  `some (.ok _)` a normal result.
* The Rust error enums carry diagnostic strings; the strings play no
  role in any claim and are dropped, keeping only the constructor.
* Rust methods that mutate `&mut self` and return `Option<Error>` are
  modelled as functions returning `Except Error State` (the updated
  state on success, exactly the error otherwise; on error the Rust code
  leaves the receiver unchanged and the caller keeps the old state).
-/

/-- Equality of embedded fallible results is decidable, so concrete runs
of the embedded operations can be checked by evaluation. -/
instance {ε α : Type} [DecidableEq ε] [DecidableEq α] :
    DecidableEq (Except ε α) := fun
  | .error a, .error b =>
    if h : a = b then .isTrue (by rw [h]) else
      .isFalse (by intro hc; cases hc; exact h rfl)
  | .error _, .ok _ => .isFalse (by intro hc; cases hc)
  | .ok _, .error _ => .isFalse (by intro hc; cases hc)
  | .ok a, .ok b =>
    if h : a = b then .isTrue (by rw [h]) else
      .isFalse (by intro hc; cases hc; exact h rfl)

namespace Baggins

/-- Rust panic marker: `bigdecimal` division panics on a zero divisor,
so division sites in the source are modelled with this guarded division,
`none` standing for the panic. -/
def bdDiv (a b : ℚ) : Option ℚ :=
  if b = 0 then none else some (a / b)

/-- `crate::hundred()` (src/lib.rs). -/
def hundred : ℚ := 100

/-- `crate::one()` (src/lib.rs). -/
def one : ℚ := 1

/-- `crate::zero()` used throughout the crate. -/
def zero : ℚ := 0

namespace Discount

/-- `discount::Mode` (src/discount/mod.rs). -/
inductive Mode
  | percentual
  | amountLine
  | amountUnit
  deriving DecidableEq

/-- `discount::DiscountError` (src/discount/mod.rs), constructors only. -/
inductive DiscountError
  | negativeValue
  | overMaxDiscount
  | invalidDecimal
  | invalidDiscountMode
  | other
  deriving DecidableEq

/-- `discount::DiscountComputer` (src/discount/mod.rs). -/
structure DiscountComputer where
  percentual : ℚ
  amount_line : ℚ
  amount_unit : ℚ
  deriving DecidableEq

/-- `DiscountComputer::new` (src/discount/mod.rs): all-zero accumulator. -/
def DiscountComputer.new : DiscountComputer :=
  { percentual := 0, amount_line := 0, amount_unit := 0 }

/-- `DiscountComputer::add_discount` (src/discount/mod.rs lines 313-339):
rejects a negative amount, rejects a percentual amount greater than 100
(the check is on the amount being added, not on the accumulated total),
otherwise adds the amount to the field selected by the mode. -/
def DiscountComputer.add_discount (c : DiscountComputer) (discount : ℚ)
    (discount_mode : Mode) : Except DiscountError DiscountComputer :=
  if discount < zero then .error .negativeValue
  else if hundred < discount ∧ discount_mode = Mode.percentual then
    .error .overMaxDiscount
  else
    match discount_mode with
    | .percentual => .ok { c with percentual := c.percentual + discount }
    | .amountLine => .ok { c with amount_line := c.amount_line + discount }
    | .amountUnit => .ok { c with amount_unit := c.amount_unit + discount }

/-- `DiscountComputer::compute` (src/discount/mod.rs lines 356-413):
validates non-negativity of `max_discount_allowed` (default 100),
`unit_value` and `qty`; computes
`discount_value = unit_value*qty*percentual/100 + amount_unit*qty + amount_line`;
fails with `OverMaxDiscount` when `discount_value > max_discount_allowed`
(the comparison is against `max_discount_allowed` itself); derives
`percentual_discount = (unit_value*qty - discount_value)/100` and fails
when it exceeds 100 (`OverMaxDiscount`) or is negative (`NegativeValue`);
otherwise returns the pair. -/
def DiscountComputer.compute (c : DiscountComputer) (unit_value qty : ℚ)
    (max_discount_allowed : Option ℚ) : Except DiscountError (ℚ × ℚ) :=
  let mda := max_discount_allowed.getD hundred
  if mda < zero then .error .negativeValue
  else if unit_value < zero then .error .negativeValue
  else if qty < zero then .error .negativeValue
  else
    let discount_value :=
      unit_value * qty * c.percentual / hundred + c.amount_unit * qty +
        c.amount_line
    if mda < discount_value then .error .overMaxDiscount
    else
      let percentual_discount := (unit_value * qty - discount_value) / hundred
      if hundred < percentual_discount then .error .overMaxDiscount
      else if percentual_discount < zero then .error .negativeValue
      else .ok (discount_value, percentual_discount)

/-- `DiscountComputer::un_discount` (src/discount/mod.rs lines 440-474):
rejects negative `discounted` or `qty`; takes `percentual` when positive,
else 1; computes
`discountable = (discounted + amount_line) / percentual * 100 + qty * amount_unit`
and `percentual_discount = (discountable - discounted) * 100 / discountable`
(an unguarded division: `none` when `discountable` is zero); returns the
triple `(discountable, discountable - discounted, percentual_discount)`. -/
def DiscountComputer.un_discount (c : DiscountComputer) (discounted qty : ℚ) :
    Option (Except DiscountError (ℚ × ℚ × ℚ)) :=
  if discounted < zero then some (.error .negativeValue)
  else if qty < zero then some (.error .negativeValue)
  else
    let percentual := if zero < c.percentual then c.percentual else one
    (bdDiv (discounted + c.amount_line) percentual).bind fun q1 =>
      let discountable := q1 * hundred + qty * c.amount_unit
      (bdDiv ((discountable - discounted) * hundred) discountable).map
        fun percentual_discount =>
          .ok (discountable, discountable - discounted, percentual_discount)

end Discount

namespace Tax

/-- `tax::Mode` (src/tax/mod.rs). -/
inductive Mode
  | percentual
  | amountLine
  | amountUnit
  deriving DecidableEq

/-- `tax::Stage` (src/tax/mod.rs). -/
inductive Stage
  | overTaxable
  | overTax
  | overTaxIgnorable
  deriving DecidableEq

/-- `tax::TaxError` (src/tax/mod.rs), constructors only. -/
inductive TaxError
  | negativeValue
  | overMaxDiscount
  | invalidDecimal
  | invalidDiscountMode
  | divisionByZero
  | other
  deriving DecidableEq

/-- `tax::TaxStage` (src/tax/mod.rs): one stage's rate accumulator. -/
structure TaxStage where
  percentuals : ℚ
  amount_line : ℚ
  amount_unit : ℚ
  deriving DecidableEq

/-- `TaxStage::new` (src/tax/mod.rs): all-zero stage. -/
def TaxStage.new : TaxStage :=
  { percentuals := 0, amount_line := 0, amount_unit := 0 }

/-- `TaxStage::add_percentual` (src/tax/mod.rs lines 319-329). -/
def TaxStage.add_percentual (s : TaxStage) (percent : ℚ) :
    Except TaxError TaxStage :=
  if percent < zero then .error .negativeValue
  else .ok { s with percentuals := s.percentuals + percent }

/-- `TaxStage::add_amount_by_qty` (src/tax/mod.rs lines 331-341). -/
def TaxStage.add_amount_by_qty (s : TaxStage) (amount : ℚ) :
    Except TaxError TaxStage :=
  if amount < zero then .error .negativeValue
  else .ok { s with amount_unit := s.amount_unit + amount }

/-- `TaxStage::add_amount_by_line` (src/tax/mod.rs lines 343-353). -/
def TaxStage.add_amount_by_line (s : TaxStage) (amount : ℚ) :
    Except TaxError TaxStage :=
  if amount < zero then .error .negativeValue
  else .ok { s with amount_line := s.amount_line + amount }

/-- `TaxStage::tax` (src/tax/mod.rs lines 355-384): `NegativeValue` on a
negative `taxable` or `qty`; `0` when `taxable` is exactly zero;
otherwise `(taxable*percentuals/100 + amount_unit)*qty + amount_line`. -/
def TaxStage.tax (s : TaxStage) (taxable qty : ℚ) : Except TaxError ℚ :=
  if taxable < zero then .error .negativeValue
  else if qty < zero then .error .negativeValue
  else if taxable = zero then .ok zero
  else
    .ok ((taxable * s.percentuals / hundred + s.amount_unit) * qty +
      s.amount_line)

/-- `Taxer::ratio` default implementation (src/tax/mod.rs lines 557-565):
`DivisionByZero` when both arguments are exactly zero, otherwise the
unguarded division `100 * tax / (taxed + tax)` (`none` marks the panic
when `taxed + tax` is zero with the arguments not both zero). -/
def ratio (taxed tax : ℚ) : Option (Except TaxError ℚ) :=
  if taxed = zero ∧ tax = zero then some (.error .divisionByZero)
  else (bdDiv (hundred * tax) (taxed + tax)).map .ok

/-- `tax::TaxComputer` (src/tax/mod.rs): the three-stage orchestrator. -/
structure TaxComputer where
  over_taxable : TaxStage
  over_tax : TaxStage
  over_tax_ignorable : TaxStage
  deriving DecidableEq

/-- `TaxComputer::new` (src/tax/mod.rs): three all-zero stages. -/
def TaxComputer.new : TaxComputer :=
  { over_taxable := TaxStage.new, over_tax := TaxStage.new,
    over_tax_ignorable := TaxStage.new }

/-- `TaxComputer::tax` (src/tax/mod.rs lines 727-758): the over-taxable
stage taxes `unit_value`; the over-tax stage taxes
`tax_over_taxable + unit_value`; the over-tax-ignorable stage taxes
`unit_value`; the sum is returned, and the first stage error is
propagated unchanged. -/
def TaxComputer.tax (t : TaxComputer) (unit_value qty : ℚ) :
    Except TaxError ℚ :=
  match t.over_taxable.tax unit_value qty with
  | .error err => .error err
  | .ok tax_over_taxable =>
    match t.over_tax.tax (tax_over_taxable + unit_value) qty with
    | .error err => .error err
    | .ok over_tax_v =>
      match t.over_tax_ignorable.tax unit_value qty with
      | .error err => .error err
      | .ok over_tax_ignorable_v =>
        .ok (tax_over_taxable + over_tax_v + over_tax_ignorable_v)

/-- `TaxComputer::un_tax` (src/tax/mod.rs lines 821-840): rejects a
negative `qty`, then forms
`numerator = taxed - b*d + b + e + h - c*(d + 1) - f - i` and
`denominator = a + d + a + g + d + 1` from
`a = over_taxable.percentuals/100`, `b = over_taxable.amount_unit*qty`,
`c = over_taxable.amount_line`, `d = over_tax.percentuals/100`,
`e = over_tax.amount_unit*qty`, `f = over_tax.amount_line`,
`g = over_tax_ignorable.percentuals/100`,
`h = over_tax_ignorable.amount_unit*qty`,
`i = over_tax_ignorable.amount_line`, and returns the unguarded quotient
(note the code's own doc comment states the denominator as
`a*d + a + g + d + 1`, while the code computes `a + d + a + g + d + 1`). -/
def TaxComputer.un_tax (t : TaxComputer) (taxed qty : ℚ) :
    Option (Except TaxError ℚ) :=
  if qty < zero then some (.error .negativeValue)
  else
    let a := t.over_taxable.percentuals / hundred
    let b := t.over_taxable.amount_unit * qty
    let c := t.over_taxable.amount_line
    let d := t.over_tax.percentuals / hundred
    let e := t.over_tax.amount_unit * qty
    let f := t.over_tax.amount_line
    let g := t.over_tax_ignorable.percentuals / hundred
    let h := t.over_tax_ignorable.amount_unit * qty
    let i := t.over_tax_ignorable.amount_line
    let numerator := taxed - b * d + b + e + h - c * (d + one) - f - i
    let denominator := a + d + a + g + d + one
    (bdDiv numerator denominator).map .ok

/-- All nine stage fields of an orchestrator are non-negative (the state
guaranteed by the `add` operations). -/
def TaxComputer.Nonneg (t : TaxComputer) : Prop :=
  0 ≤ t.over_taxable.percentuals ∧ 0 ≤ t.over_taxable.amount_line ∧
  0 ≤ t.over_taxable.amount_unit ∧ 0 ≤ t.over_tax.percentuals ∧
  0 ≤ t.over_tax.amount_line ∧ 0 ≤ t.over_tax.amount_unit ∧
  0 ≤ t.over_tax_ignorable.percentuals ∧
  0 ≤ t.over_tax_ignorable.amount_line ∧
  0 ≤ t.over_tax_ignorable.amount_unit

instance (t : TaxComputer) : Decidable t.Nonneg := by
  unfold TaxComputer.Nonneg
  infer_instance

end Tax

/-- `BagginsError` (src/lib.rs), constructors only. -/
inductive BagginsError
  | negativeUnitValue
  | negativeResult
  | negativeQty
  | invalidDecimalValue
  | other
  deriving DecidableEq

/-- `BigDecimal::round` to `scale` decimal digits, as used by
`Calculation::round` (src/lib.rs).  The claims settled here never reach a
rounding step, so the tie-breaking mode of the decimal library is
immaterial; Mathlib's integer rounding stands in for it. -/
def bdRound (x : ℚ) (scale : ℤ) : ℚ :=
  ((round (x * (10 : ℚ) ^ scale) : ℤ) : ℚ) / (10 : ℚ) ^ scale

/-- `Calculation` (src/lib.rs): the computed line breakdown. -/
structure Calculation where
  net : ℚ
  brute : ℚ
  tax : ℚ
  discount : ℚ
  net_wout_disc : ℚ
  brute_wout_disc : ℚ
  tax_wout_disc : ℚ
  unit_value : ℚ
  total_discount_percent : ℚ
  deriving DecidableEq

/-- `Calculation::round` (src/lib.rs lines 228-241): every field rounded
to `scale` decimal digits; a fresh value, the original untouched. -/
def Calculation.round (c : Calculation) (scale : ℤ) : Calculation :=
  { net := bdRound c.net scale
    brute := bdRound c.brute scale
    tax := bdRound c.tax scale
    discount := bdRound c.discount scale
    net_wout_disc := bdRound c.net_wout_disc scale
    brute_wout_disc := bdRound c.brute_wout_disc scale
    tax_wout_disc := bdRound c.tax_wout_disc scale
    unit_value := bdRound c.unit_value scale
    total_discount_percent := bdRound c.total_discount_percent scale }

/-- `DetailCalculator` (src/lib.rs): one discount accumulator plus one
tax orchestrator.  `lib.rs` names the handler types
`discount::ComputedDiscount` and `tax::ComputedTax`; no source with
those names is under `src/`, and the only discount / tax computers in
the tree are `DiscountComputer` and `TaxComputer`, which stand in for
them here. -/
structure DetailCalculator where
  tax_handler : Tax.TaxComputer
  discount_handler : Discount.DiscountComputer

/-- `DetailCalculator::new` (src/lib.rs). -/
def DetailCalculator.new : DetailCalculator :=
  { tax_handler := Tax.TaxComputer.new,
    discount_handler := Discount.DiscountComputer.new }

/-- `DetailCalculator::compute` (src/lib.rs lines 688-752): a negative
scale is replaced by 32; the discount handler produces the discount `d`
(the handler call in `lib.rs` takes `unit_value` and `qty` and its
result is used as the discount value, modelled by the value component of
`DiscountComputer::compute` with the default cap); then
`net = unit_value*qty - d` and `discounted_uv = net / qty` (an unguarded
division: `none` marks the panic when `qty` is zero); the tax handler is
applied to `discounted_uv` and to the plain `unit_value`; and
`total_discount_percent = 100 * d / net_wout` (unguarded as well).  Any
handler error is wrapped as `BagginsError::Other`.  The result is the
assembled `Calculation`, rounded to `scale`. -/
def DetailCalculator.compute (c : DetailCalculator) (unit_value qty : ℚ)
    (scale : ℤ) : Option (Except BagginsError Calculation) :=
  let scale := if scale < 0 then (32 : ℤ) else scale
  match c.discount_handler.compute unit_value qty none with
  | .error _ => some (.error .other)
  | .ok dp =>
    let d := dp.1
    let net := unit_value * qty - d
    (bdDiv net qty).bind fun discounted_uv =>
      match c.tax_handler.tax discounted_uv qty with
      | .error _ => some (.error .other)
      | .ok tx =>
        match c.tax_handler.tax unit_value qty with
        | .error _ => some (.error .other)
        | .ok tx_wout =>
          let net_wout := unit_value * qty
          (bdDiv (hundred * d) net_wout).map fun tdp =>
            .ok ((Calculation.mk net (net + tx) tx d net_wout
              (net_wout + tx_wout) tx_wout unit_value tdp).round scale)

open Discount Tax

/-- A single-stage configuration: a 10% over-taxable percentual rate and
nothing else (both other stages all zero). -/
def tcSingle : TaxComputer :=
  { over_taxable := { percentuals := 10, amount_line := 0, amount_unit := 0 },
    over_tax := TaxStage.new, over_tax_ignorable := TaxStage.new }

/-- A discount accumulator holding a single 50% percentual discount. -/
def dcHalf : DiscountComputer :=
  { percentual := 50, amount_line := 0, amount_unit := 0 }

/-- A discount accumulator holding a single 10% percentual discount. -/
def dcTen : DiscountComputer :=
  { percentual := 10, amount_line := 0, amount_unit := 0 }

/-- A discount accumulator holding a fixed per-line discount of 50. -/
def dcLine : DiscountComputer :=
  { percentual := 0, amount_line := 50, amount_unit := 0 }

/-- A tax orchestrator with all nine stage fields nonzero-or-zero but
non-negative, used to exercise the inverse on a fully loaded
configuration. -/
def tcFull : TaxComputer :=
  { over_taxable := { percentuals := 10, amount_line := 3, amount_unit := 2 },
    over_tax := { percentuals := 5, amount_line := 1, amount_unit := 1 },
    over_tax_ignorable := { percentuals := 7, amount_line := 2, amount_unit := 0 } }

/-- Claim C1: the spec states that for a configuration in which only the
over-taxable stage holds nonzero rates, `un_tax` applied to
`v*q + tax(v, q)` recovers `v*q` exactly.  The code refutes it: with a
single 10% over-taxable rate, `v = 100`, `q = 1`, the forward tax is 10,
but `un_tax 110 1` divides by the denominator `a + d + a + g + d + 1 = 1.2`
(the code's own doc comment states `a*d + a + g + d + 1 = 1.1`) and
returns `275/3 ≈ 91.67`, not `100`. -/
theorem C1_untax_not_inverse_single_stage :
    tcSingle.tax 100 1 = .ok 10 ∧
    tcSingle.un_tax (100 * 1 + 10) 1 = some (.ok (275 / 3)) ∧
    (275 / 3 : ℚ) ≠ 100 * 1 := by
  refine ⟨?_, ?_, by norm_num⟩
  · norm_num [TaxComputer.tax, TaxStage.tax, tcSingle, TaxStage.new,
      Baggins.zero, Baggins.hundred]
  · norm_num [TaxComputer.un_tax, tcSingle, TaxStage.new, bdDiv,
      Baggins.zero, Baggins.one, Baggins.hundred]

/-- Claim C2: the spec states that `un_discount` inverts `compute`, and
in particular that with an all-zero discount configuration it returns
its input unchanged.  The code refutes it: with the all-zero accumulator
and `unit_value = qty = 1`, `compute` yields discount 0, so the
discounted line value is 1, yet `un_discount 1 1` divides by the
percentual fallback 1 and multiplies by 100, returning the
"discountable" 100 instead of 1. -/
theorem C2_undiscount_not_inverse_zero_config :
    DiscountComputer.new.compute 1 1 none = .ok (0, 1 / 100) ∧
    DiscountComputer.new.un_discount (1 * 1 - 0) 1 = some (.ok (100, 99, 99)) ∧
    (100 : ℚ) ≠ 1 := by
  refine ⟨?_, ?_, by norm_num⟩
  · norm_num [DiscountComputer.compute, DiscountComputer.new,
      Baggins.zero, Baggins.hundred]
  · norm_num [DiscountComputer.un_discount, DiscountComputer.new, bdDiv,
      Baggins.zero, Baggins.one, Baggins.hundred]

/-- Claim C5: the spec states that no core operation panics on bad
input, in particular that `DetailCalculator::compute` with quantity
exactly zero returns a `Result`.  The code refutes it: with a fresh
calculator, `unit_value = 100`, `qty = 0`, the discount handler succeeds
with discount 0, and the unguarded `BigDecimal` division
`net / qty` then panics (modelled by `none`). -/
theorem C5_compute_qty_zero_panics :
    DetailCalculator.new.compute 100 0 2 = none := by
  norm_num [DetailCalculator.compute, DetailCalculator.new,
    DiscountComputer.compute, DiscountComputer.new, TaxComputer.new, bdDiv,
    Baggins.zero, Baggins.one, Baggins.hundred]

/-- Claim C6: the orchestrator's forward `tax(unit_value, qty)` equals
`t1 + t2 + t3` with `t1` the over-taxable stage on `unit_value`, `t2`
the over-tax stage on `unit_value + t1`, and `t3` the over-tax-ignorable
stage on the untouched `unit_value`; the first stage error propagates
unchanged with no partial result. -/
theorem C6_tax_is_three_stage_composition (t : TaxComputer)
    (unit_value qty : ℚ) :
    t.tax unit_value qty =
      (t.over_taxable.tax unit_value qty).bind fun t1 =>
        (t.over_tax.tax (unit_value + t1) qty).bind fun t2 =>
          (t.over_tax_ignorable.tax unit_value qty).map fun t3 =>
            t1 + t2 + t3 := by
  unfold TaxComputer.tax
  rcases h1 : t.over_taxable.tax unit_value qty with e1 | t1
  · simp [Except.bind]
  · simp only [Except.bind]
    rw [add_comm unit_value t1]
    rcases h2 : t.over_tax.tax (t1 + unit_value) qty with e2 | t2
    · simp [Except.bind]
    · simp only [Except.bind]
      rcases h3 : t.over_tax_ignorable.tax unit_value qty with e3 | t3 <;>
        simp [Except.map]

/-- Claim C7: a tax stage's `tax(taxable, qty)` fails with
`NegativeValue` when `taxable < 0` or `qty < 0`; returns exactly `0`
(not an error) when `taxable` is exactly zero, whatever the stage
configuration; and otherwise returns
`(taxable*percentual/100 + amount_per_unit)*qty + amount_per_line`. -/
theorem C7_stage_tax_formula (s : TaxStage) (taxable qty : ℚ) :
    ((taxable < 0 ∨ qty < 0) → s.tax taxable qty = .error .negativeValue) ∧
    (taxable = 0 → 0 ≤ qty → s.tax taxable qty = .ok 0) ∧
    (0 < taxable → 0 ≤ qty →
      s.tax taxable qty =
        .ok ((taxable * s.percentuals / 100 + s.amount_unit) * qty +
          s.amount_line)) := by
  unfold TaxStage.tax
  simp only [Baggins.zero, Baggins.hundred]
  split_ifs with h1 h2 h3
  · exact ⟨fun _ => rfl,
      fun h0 _ => absurd h1 (by rw [h0]; exact lt_irrefl 0),
      fun hpos _ => absurd h1 (not_lt.2 (le_of_lt hpos))⟩
  · exact ⟨fun _ => rfl,
      fun _ hq => absurd h2 (not_lt.2 hq),
      fun _ hq => absurd h2 (not_lt.2 hq)⟩
  · refine ⟨fun hneg => ?_, fun _ _ => rfl,
      fun hpos _ => absurd h3 (by rintro rfl; exact lt_irrefl 0 hpos)⟩
    rcases hneg with h | h
    · exact absurd h h1
    · exact absurd h h2
  · refine ⟨fun hneg => ?_, fun h0 _ => absurd h0 h3, fun _ _ => rfl⟩
    rcases hneg with h | h
    · exact absurd h h1
    · exact absurd h h2

/-- Witness for C7 at the stage `(percentuals, amount_line, amount_unit)
= (10, 7, 3)`: negative taxable errors, zero taxable yields 0 despite
the nonzero fixed amounts, and a positive taxable follows the formula. -/
theorem C7_stage_tax_formula_witness :
    TaxStage.tax ⟨10, 7, 3⟩ (-1) 2 = .error .negativeValue ∧
    TaxStage.tax ⟨10, 7, 3⟩ 0 2 = .ok 0 ∧
    TaxStage.tax ⟨10, 7, 3⟩ 5 2 = .ok ((5 * 10 / 100 + 3) * 2 + 7) := by
  refine ⟨(C7_stage_tax_formula ⟨10, 7, 3⟩ (-1) 2).1 (Or.inl (by norm_num)),
    (C7_stage_tax_formula ⟨10, 7, 3⟩ 0 2).2.1 rfl (by norm_num), ?_⟩
  exact (C7_stage_tax_formula ⟨10, 7, 3⟩ 5 2).2.2 (by norm_num) (by norm_num)

/-- Claim C3 counterexample: the spec states that `compute` fails with
`OverMaxDiscount` exactly when the discount value exceeds
`unit_value*qty*max_discount_allowed/100`.  With a 50% discount,
`unit_value = 1000`, `qty = 1` and the default cap 100, the discount
value 500 does not exceed `1000*1*100/100 = 1000`, yet the code fails:
it compares the discount value against `max_discount_allowed` itself. -/
theorem C3_cap_counterexample :
    dcHalf.compute 1000 1 none = .error .overMaxDiscount ∧
    1000 * 1 * dcHalf.percentual / 100 + dcHalf.amount_unit * 1 +
      dcHalf.amount_line ≤ 1000 * 1 * 100 / 100 := by
  constructor
  · norm_num [DiscountComputer.compute, dcHalf, Baggins.zero, Baggins.hundred]
  · norm_num [dcHalf]

/-- Claim C3 amended: `compute` fails with `OverMaxDiscount` whenever
the computed discount value exceeds `max_discount_allowed` itself (the
cap is compared as an absolute amount, not scaled by
`unit_value*qty/100`); a discount value exactly equal to the cap passes
the cap check, and `compute` then succeeds provided the derived
percentage `(unit_value*qty - discount_value)/100` lies in `[0, 100]`. -/
theorem C3_cap_amended (c : DiscountComputer) (uv q mda : ℚ)
    (h1 : 0 ≤ mda) (h2 : 0 ≤ uv) (h3 : 0 ≤ q) :
    (mda < uv * q * c.percentual / 100 + c.amount_unit * q + c.amount_line →
      c.compute uv q (some mda) = .error .overMaxDiscount) ∧
    (∀ dv, dv = uv * q * c.percentual / 100 + c.amount_unit * q +
        c.amount_line →
      dv ≤ mda → (uv * q - dv) / 100 ≤ 100 → 0 ≤ (uv * q - dv) / 100 →
      c.compute uv q (some mda) = .ok (dv, (uv * q - dv) / 100)) := by
  unfold DiscountComputer.compute
  simp only [Baggins.zero, Baggins.hundred, Option.getD_some]
  rw [if_neg (not_lt.2 h1), if_neg (not_lt.2 h2), if_neg (not_lt.2 h3)]
  constructor
  · intro hover
    rw [if_pos hover]
  · rintro dv rfl hle hp100 hp0
    rw [if_neg (not_lt.2 hle), if_neg (not_lt.2 hp100), if_neg (not_lt.2 hp0)]

/-- Witness for the amended C3: with a 50% discount on a line of 1000,
a cap of 100 is exceeded by the discount value 500 and `compute` fails,
while a cap of exactly 500 (the boundary case) succeeds. -/
theorem C3_cap_amended_witness :
    dcHalf.compute 1000 1 (some 100) = .error .overMaxDiscount ∧
    dcHalf.compute 1000 1 (some 500) = .ok (500, 5) := by
  constructor
  · exact (C3_cap_amended dcHalf 1000 1 100 (by norm_num) (by norm_num)
      (by norm_num)).1 (by norm_num [dcHalf])
  · have h := (C3_cap_amended dcHalf 1000 1 500 (by norm_num) (by norm_num)
      (by norm_num)).2 500 (by norm_num [dcHalf]) (by norm_num [dcHalf])
      (by norm_num) (by norm_num)
    norm_num at h
    exact h

/-- Claim C4 counterexample: the spec states that `add_discount` with
mode percentual fails when the new cumulative percentual exceeds 100,
so that the accumulated field can never pass 100.  The code only checks
the amount being added: adding 60% twice to a fresh accumulator
succeeds both times and leaves `percentual = 120 > 100`. -/
theorem C4_cumulative_percentual_counterexample :
    (DiscountComputer.new.add_discount 60 Discount.Mode.percentual).bind
        (fun c => c.add_discount 60 Discount.Mode.percentual) =
      .ok { percentual := 120, amount_line := 0, amount_unit := 0 } ∧
    (100 : ℚ) < 120 := by
  constructor
  · norm_num [DiscountComputer.add_discount, DiscountComputer.new,
      Except.bind, Baggins.zero, Baggins.hundred]
  · norm_num

/-- Claim C4 amended: `add_discount` fails with `NegativeValue` when the
amount is negative, and with `OverMaxDiscount` when the mode is
percentual and the single amount being added (not the new cumulative
total) exceeds 100; every successful add keeps all three accumulator
fields non-negative, but the cumulative percentual may exceed 100 over
several adds. -/
theorem C4_add_discount_amended (c : DiscountComputer) (d : ℚ)
    (m : Discount.Mode) (hp : 0 ≤ c.percentual) (hl : 0 ≤ c.amount_line)
    (hu : 0 ≤ c.amount_unit) :
    (d < 0 → c.add_discount d m = .error .negativeValue) ∧
    (0 ≤ d → 100 < d → m = Discount.Mode.percentual →
      c.add_discount d m = .error .overMaxDiscount) ∧
    ∀ c', c.add_discount d m = .ok c' →
      0 ≤ c'.percentual ∧ 0 ≤ c'.amount_line ∧ 0 ≤ c'.amount_unit := by
  unfold DiscountComputer.add_discount
  simp only [Baggins.zero, Baggins.hundred]
  by_cases hneg : d < 0
  · rw [if_pos hneg]
    exact ⟨fun _ => rfl, fun hd _ _ => absurd hneg (not_lt.2 hd),
      fun c' h => Except.noConfusion h⟩
  · rw [if_neg hneg]
    have hd0 : 0 ≤ d := not_lt.1 hneg
    by_cases hover : 100 < d ∧ m = Discount.Mode.percentual
    · rw [if_pos hover]
      exact ⟨fun hd => absurd hd hneg, fun _ _ _ => rfl,
        fun c' h => Except.noConfusion h⟩
    · rw [if_neg hover]
      refine ⟨fun hd => absurd hd hneg,
        fun _ h100 hm => absurd ⟨h100, hm⟩ hover, ?_⟩
      cases m <;> (intro c' h; simp only [Except.ok.injEq] at h; subst h)
      · exact ⟨add_nonneg hp hd0, hl, hu⟩
      · exact ⟨hp, add_nonneg hl hd0, hu⟩
      · exact ⟨hp, hl, add_nonneg hu hd0⟩

/-- Witness for the amended C4: a negative add and a single over-100
percentual add fail on a fresh accumulator, and adding 60% to an
accumulator already holding 60% succeeds with all fields still
non-negative (cumulative percentual 120). -/
theorem C4_add_discount_amended_witness :
    DiscountComputer.new.add_discount (-1) Discount.Mode.percentual =
      .error .negativeValue ∧
    DiscountComputer.new.add_discount 101 Discount.Mode.percentual =
      .error .overMaxDiscount ∧
    (0 ≤ (DiscountComputer.mk 120 0 0).percentual ∧
      0 ≤ (DiscountComputer.mk 120 0 0).amount_line ∧
      0 ≤ (DiscountComputer.mk 120 0 0).amount_unit) := by
  refine ⟨(C4_add_discount_amended DiscountComputer.new (-1)
      Discount.Mode.percentual (by norm_num [DiscountComputer.new])
      (by norm_num [DiscountComputer.new])
      (by norm_num [DiscountComputer.new])).1 (by norm_num),
    (C4_add_discount_amended DiscountComputer.new 101
      Discount.Mode.percentual (by norm_num [DiscountComputer.new])
      (by norm_num [DiscountComputer.new])
      (by norm_num [DiscountComputer.new])).2.1 (by norm_num) (by norm_num)
      rfl, ?_⟩
  exact (C4_add_discount_amended (DiscountComputer.mk 60 0 0) 60
    Discount.Mode.percentual (by norm_num) (by norm_num) (by norm_num)).2.2
    (DiscountComputer.mk 120 0 0)
    (by norm_num [DiscountComputer.add_discount, Baggins.zero,
      Baggins.hundred])

/-- Claim C8 counterexample: the spec states that `ratio` fails with
`DivisionByZero` exactly when both arguments are zero and otherwise
returns `100*tax/(taxed+tax)`.  At `taxed = 1`, `tax = -1` the
arguments are not both zero, yet the unguarded division by
`taxed + tax = 0` panics (modelled by `none`): the code neither returns
the `DivisionByZero` error nor any value there. -/
theorem C8_ratio_counterexample :
    ratio 1 (-1) = none ∧ ¬ ((1 : ℚ) = 0 ∧ (-1 : ℚ) = 0) := by
  constructor
  · norm_num [ ratio, bdDiv, Baggins.zero, Baggins.hundred]
  · norm_num

/-- Claim C8 amended: `ratio` fails with `DivisionByZero` when both
arguments are exactly zero, and returns `100*tax/(taxed+tax)` whenever
`taxed + tax ≠ 0` (so `ratio 100 0 = 0` and `ratio 0 100 = 100`); in
the remaining case — `taxed + tax = 0` with the arguments not both
zero — the unguarded division panics instead of failing with
`DivisionByZero`. -/
theorem C8_ratio_amended (taxed tax : ℚ) :
    (taxed = 0 ∧ tax = 0 → ratio taxed tax = some (.error .divisionByZero)) ∧
    (taxed + tax ≠ 0 →
      ratio taxed tax = some (.ok (100 * tax / (taxed + tax)))) := by
  unfold Baggins.Tax.ratio
  simp only [Baggins.zero, Baggins.hundred]
  constructor
  · intro hz
    rw [if_pos hz]
  · intro hs
    have hnz : ¬ (taxed = 0 ∧ tax = 0) := by
      rintro ⟨rfl, rfl⟩
      simp at hs
    rw [if_neg hnz]
    simp only [bdDiv]
    rw [if_neg hs]
    rfl

/-- Witness for the amended C8: `ratio 0 0` is the `DivisionByZero`
error, `ratio 100 0` returns 0 and `ratio 0 100` returns 100. -/
theorem C8_ratio_amended_witness :
    ratio 0 0 = some (.error .divisionByZero) ∧
    ratio 100 0 = some (.ok (100 * 0 / (100 + 0))) ∧
    ratio 0 100 = some (.ok (100 * 100 / (0 + 100))) ∧
    (100 * 0 / (100 + 0) : ℚ) = 0 ∧ (100 * 100 / (0 + 100) : ℚ) = 100 := by
  exact ⟨(C8_ratio_amended 0 0).1 ⟨rfl, rfl⟩,
    (C8_ratio_amended 100 0).2 (by norm_num),
    (C8_ratio_amended 0 100).2 (by norm_num), by norm_num, by norm_num⟩

/-- Claim C9 counterexample: the spec states that the second component
of a successful `compute` equals the discount expressed as a percentage
of the post-discount line value, `100*discount/(unit_value*qty -
discount)`.  With a 10% discount, `unit_value = 100`, `qty = 1`, the
discount is 10 and the code returns `(100*1 - 10)/100 = 0.9`, while the
claimed formula gives `100*10/90 = 100/9`. -/
theorem C9_percentage_counterexample :
    dcTen.compute 100 1 none = .ok (10, 9 / 10) ∧
    (9 / 10 : ℚ) ≠ 100 * 10 / (100 * 1 - 10) := by
  constructor
  · norm_num [DiscountComputer.compute, dcTen, Baggins.zero, Baggins.hundred]
  · norm_num

/-- Claim C9 amended: when the earlier checks pass (non-negative inputs
and discount value within the cap), the second component of `compute` is
`(unit_value*qty - discount_value)/100` — the post-discount line value
scaled by 1/100, not the discount as a percentage of it — and `compute`
fails with `OverMaxDiscount` when that quantity exceeds 100 and with
`NegativeValue` when it is negative. -/
theorem C9_percentage_amended (c : DiscountComputer) (uv q : ℚ)
    (h2 : 0 ≤ uv) (h3 : 0 ≤ q)
    (hcap : uv * q * c.percentual / 100 + c.amount_unit * q +
      c.amount_line ≤ 100) :
    ∀ pd, pd = (uv * q - (uv * q * c.percentual / 100 + c.amount_unit * q +
        c.amount_line)) / 100 →
      (100 < pd → c.compute uv q none = .error .overMaxDiscount) ∧
      (pd < 0 → c.compute uv q none = .error .negativeValue) ∧
      (0 ≤ pd → pd ≤ 100 →
        c.compute uv q none =
          .ok (uv * q * c.percentual / 100 + c.amount_unit * q +
            c.amount_line, pd)) := by
  rintro pd rfl
  unfold DiscountComputer.compute
  simp only [Baggins.zero, Baggins.hundred, Option.getD_none]
  rw [if_neg (by norm_num : ¬ (100 : ℚ) < 0), if_neg (not_lt.2 h2),
    if_neg (not_lt.2 h3), if_neg (not_lt.2 hcap)]
  refine ⟨fun hpd => ?_, fun hpd => ?_, fun hpd0 hpd100 => ?_⟩
  · rw [if_pos hpd]
  · rw [if_neg (not_lt.2 (hpd.le.trans (by norm_num))), if_pos hpd]
  · rw [if_neg (not_lt.2 hpd100), if_neg (not_lt.2 hpd0)]

/-- Witness for the amended C9: the 10% example succeeds with second
component `0.9`; an all-zero accumulator on a line of 20000 has derived
quantity 200 > 100 and fails with `OverMaxDiscount`; a per-line discount
of 50 on a line of 10 has derived quantity `-0.4 < 0` and fails with
`NegativeValue`. -/
theorem C9_percentage_amended_witness :
    dcTen.compute 100 1 none =
      .ok (100 * 1 * dcTen.percentual / 100 + dcTen.amount_unit * 1 +
        dcTen.amount_line, 9 / 10) ∧
    100 * 1 * dcTen.percentual / 100 + dcTen.amount_unit * 1 +
      dcTen.amount_line = (10 : ℚ) ∧
    DiscountComputer.new.compute 20000 1 none = .error .overMaxDiscount ∧
    dcLine.compute 10 1 none = .error .negativeValue := by
  refine ⟨(C9_percentage_amended dcTen 100 1 (by norm_num) (by norm_num)
      (by norm_num [dcTen]) (9 / 10) (by norm_num [dcTen])).2.2
      (by norm_num) (by norm_num),
    by norm_num [dcTen], ?_, ?_⟩
  · exact (C9_percentage_amended DiscountComputer.new 20000 1 (by norm_num)
      (by norm_num) (by norm_num [DiscountComputer.new]) 200
      (by norm_num [DiscountComputer.new])).1 (by norm_num)
  · exact (C9_percentage_amended dcLine 10 1 (by norm_num) (by norm_num)
      (by norm_num [dcLine]) (-2 / 5) (by norm_num [dcLine])).2.1
      (by norm_num)

/-- Claim C10: on any orchestrator whose nine stage fields are all
non-negative (the states reachable through the add operations),
`un_tax` returns `Ok` for every `taxed` input — including negative
ones, since `taxed` is never checked — because its denominator
`a + d + a + g + d + 1` is at least 1; a negative `qty` is its only
error, `NegativeValue`. -/
theorem C10_un_tax_total_on_nonneg (t : TaxComputer) (taxed qty : ℚ)
    (hnn : t.Nonneg) :
    (0 ≤ qty → ∃ v, t.un_tax taxed qty = some (.ok v)) ∧
    (qty < 0 → t.un_tax taxed qty = some (.error .negativeValue)) := by
  obtain ⟨hp1, -, -, hp2, -, -, hp3, -, -⟩ := hnn
  unfold TaxComputer.un_tax
  simp only [Baggins.zero, Baggins.one, Baggins.hundred]
  constructor
  · intro hq
    rw [if_neg (not_lt.2 hq)]
    have a1 : 0 ≤ t.over_taxable.percentuals / 100 :=
      div_nonneg hp1 (by norm_num)
    have a2 : 0 ≤ t.over_tax.percentuals / 100 :=
      div_nonneg hp2 (by norm_num)
    have a3 : 0 ≤ t.over_tax_ignorable.percentuals / 100 :=
      div_nonneg hp3 (by norm_num)
    have hden : t.over_taxable.percentuals / 100 +
        t.over_tax.percentuals / 100 + t.over_taxable.percentuals / 100 +
        t.over_tax_ignorable.percentuals / 100 + t.over_tax.percentuals / 100 +
        1 ≠ 0 := ne_of_gt (by linarith)
    simp only [bdDiv]
    rw [if_neg hden]
    exact ⟨_, rfl⟩
  · intro hq
    rw [if_pos hq]

/-- Witness for C10 on the fully loaded non-negative configuration
`tcFull` and the negative taxed value `-50`: `un_tax` still returns
`Ok` for `qty = 2`, and returns the `NegativeValue` error for
`qty = -1`. -/
theorem C10_un_tax_total_witness :
    (∃ v, tcFull.un_tax (-50) 2 = some (.ok v)) ∧
    tcFull.un_tax (-50) (-1) = some (.error .negativeValue) := by
  have hnn : tcFull.Nonneg := by
    norm_num [TaxComputer.Nonneg, tcFull]
  exact ⟨(C10_un_tax_total_on_nonneg tcFull (-50) 2 hnn).1 (by norm_num),
    (C10_un_tax_total_on_nonneg tcFull (-50) (-1) hnn).2 (by norm_num)⟩

end Baggins
